import Mathlib

/-!
Shallow embedding of the quorum-voting layer of `quenero`
(`src/cryptonote_core/masternode_voting.h`) and of the known-spent-data
pruning utility (`src/blockchain_utilities/blockchain_prune_known_spent_data.cpp`).

Machine integers (`uint8_t`, `uint16_t`, `uint32_t`, `uint64_t`) are modelled
as `Nat`: none of the verified operations perform arithmetic that can wrap in
the source (heights and counts are compared or incremented far below 2^64).
Opaque cryptographic values (`crypto::hash`, `crypto::signature`,
`crypto::public_key`) are modelled as `Nat`.

The header file declares the `voting_pool` operations and the verification
functions but their translation unit is not among the sources; those bodies
are modelled from the specification, each marked `Modelled from the spec:` in
its doc comment.  The data model (vote record, pool entry constructors and
their key equality) and the pruning utility's main loop are translated
directly from the sources.
-/

namespace masternodes

/-- `new_state` comes from `cryptonote_basic/tx_extra.h`, which is not among
the sources.  Modelled from the spec: the proposed new state of a worker
masternode, e.g. deregistration ("inject 6 distinct valid state-change votes
for worker_index=3, state=Deregister"). -/
inductive new_state where
| deregister
| decommission
| recommission
| ip_change_penalty
deriving DecidableEq, Repr

/-- `masternode_voting.h` line 54: `struct checkpoint_vote { crypto::hash block_hash; }`. -/
structure checkpoint_vote where
  block_hash : Nat
deriving DecidableEq, Repr

/-- `masternode_voting.h` line 55:
`struct state_change_vote { uint16_t worker_index; new_state state; uint16_t reason; }`. -/
structure state_change_vote where
  worker_index : Nat
  state : new_state
  reason : Nat
deriving DecidableEq, Repr

/-- `masternode_voting.h` lines 57-64. -/
inductive quorum_type where
| obligations
| checkpointing
| blink
| pulse
deriving DecidableEq, Repr

/-- `masternode_voting.h` line 77. -/
inductive quorum_group where
| invalid
| validator
| worker
deriving DecidableEq, Repr

/-- `masternode_voting.h` lines 78-100.  The C++ payload is a union
`{ state_change_vote state_change; checkpoint_vote checkpoint; }`; the member
matching `type` is the active one.  We model the union by carrying both
members, which makes every union read the code performs total; the code only
ever reads the member selected by `type`. -/
structure quorum_vote_t where
  version : Nat
  type : quorum_type
  block_height : Nat
  group : quorum_group
  index_in_group : Nat
  signature : Nat
  state_change : state_change_vote
  checkpoint : checkpoint_vote
deriving DecidableEq, Repr

/-- `masternode_voting.h` lines 118-122. -/
structure pool_vote_entry where
  vote : quorum_vote_t
  time_last_sent_p2p : Nat
deriving DecidableEq, Repr

/-- `cryptonote::tx_extra_masternode_state_change` comes from `tx_extra.h`,
which is not among the sources.  Modelled from the spec and from its use at
`masternode_voting.h` lines 147-148: the state-change payload embedded in a
committed transaction, carrying the decision's height, subject worker index
and proposed state. -/
structure tx_extra_masternode_state_change where
  block_height : Nat
  masternode_index : Nat
  state : new_state
deriving DecidableEq, Repr

/-- `masternode_voting.h` lines 143-156: a decision entry of the obligations
sub-pool. -/
structure obligations_pool_entry where
  height : Nat
  worker_index : Nat
  state : new_state
  votes : List pool_vote_entry
deriving DecidableEq, Repr

/-- `masternode_voting.h` lines 145-146: the constructor from a vote
(`height{vote.block_height}, worker_index{vote.state_change.worker_index},
state{vote.state_change.state}`; the `votes` vector starts empty). -/
def obligations_pool_entry.ofVote (vote : quorum_vote_t) : obligations_pool_entry :=
  { height := vote.block_height
    worker_index := vote.state_change.worker_index
    state := vote.state_change.state
    votes := [] }

/-- `masternode_voting.h` lines 147-148: the constructor from an embedded
state change (`height{sc.block_height}, worker_index{sc.masternode_index},
state{sc.state}`). -/
def obligations_pool_entry.ofStateChange (sc : tx_extra_masternode_state_change) : obligations_pool_entry :=
  { height := sc.block_height
    worker_index := sc.masternode_index
    state := sc.state
    votes := [] }

/-- `masternode_voting.h` line 155: `operator==` of `obligations_pool_entry`
(`height == e.height && worker_index == e.worker_index && state == e.state`);
the `votes` vector is not part of the comparison. -/
def obligations_pool_entry.beq (a e : obligations_pool_entry) : Bool :=
  a.height == e.height && a.worker_index == e.worker_index && decide (a.state = e.state)

/-- `masternode_voting.h` lines 159-168: a decision entry of the checkpoint
sub-pool. -/
structure checkpoint_pool_entry where
  height : Nat
  hash : Nat
  votes : List pool_vote_entry
deriving DecidableEq, Repr

/-- `masternode_voting.h` line 161: the constructor from a vote
(`height{vote.block_height}, hash{vote.checkpoint.block_hash}`). -/
def checkpoint_pool_entry.ofVote (vote : quorum_vote_t) : checkpoint_pool_entry :=
  { height := vote.block_height
    hash := vote.checkpoint.block_hash
    votes := [] }

/-- `masternode_voting.h` line 167: `operator==` of `checkpoint_pool_entry`
(`height == e.height && hash == e.hash`). -/
def checkpoint_pool_entry.beq (a e : checkpoint_pool_entry) : Bool :=
  a.height == e.height && a.hash == e.hash

/-- `masternode_voting.h` lines 124-172: the two sub-pools of `voting_pool`.
The `std::recursive_mutex` is a concurrency artifact with no sequential
content and is not modelled; each public operation is a function of the whole
pool state. -/
structure voting_pool where
  m_obligations_pool : List obligations_pool_entry
  m_checkpoint_pool : List checkpoint_pool_entry
deriving DecidableEq, Repr

/-- The retention window for votes, a protocol constant (`VOTE_LIFETIME` in
the companion translation unit, not among the sources).  Modelled from the
spec: "a small fixed window"; the verified claims are parametric in its
value, which is fixed here at 60 blocks. -/
def VOTE_LIFETIME : Nat := 60

/-- Modelled from the spec: the obligations-sub-pool half of the private
helper `find_vote_pool` (declared at `masternode_voting.h` line 141) with
`create_if_not_found = false` — find the decision entry whose key (via
`obligations_pool_entry.beq`) matches the entry constructed from the vote. -/
def find_obligations_entry (pool : List obligations_pool_entry) (vote : quorum_vote_t) :
    Option obligations_pool_entry :=
  pool.find? (fun e => e.beq (obligations_pool_entry.ofVote vote))

/-- Modelled from the spec: the checkpoint-sub-pool half of `find_vote_pool`
with `create_if_not_found = false`. -/
def find_checkpoint_entry (pool : List checkpoint_pool_entry) (vote : quorum_vote_t) :
    Option checkpoint_pool_entry :=
  pool.find? (fun e => e.beq (checkpoint_pool_entry.ofVote vote))

/-- Modelled from the spec: `find_vote_pool` (`masternode_voting.h` line 141)
as a read-only lookup — route by the vote's quorum type to the obligations or
checkpoint sub-pool and return the matching decision's vote list, `none` when
the type routes to no sub-pool or no entry matches. -/
def voting_pool.find_vote_pool (p : voting_pool) (vote : quorum_vote_t) :
    Option (List pool_vote_entry) :=
  match vote.type with
  | .obligations => (find_obligations_entry p.m_obligations_pool vote).map (fun e => e.votes)
  | .checkpointing => (find_checkpoint_entry p.m_checkpoint_pool vote).map (fun e => e.votes)
  | _ => none

/-- Modelled from the spec: insertion into the obligations sub-pool.  Walk the
entries; at the first entry whose key matches the vote's, either report the
existing vote list unchanged (an entry with the same signer index is already
present: duplicate) or append `{vote, 0}`; when no entry matches, create a
fresh entry holding just this vote.  Returns the decision's (possibly grown)
vote list together with the updated sub-pool. -/
def add_to_obligations (pool : List obligations_pool_entry) (vote : quorum_vote_t) :
    List pool_vote_entry × List obligations_pool_entry :=
  match pool with
  | [] =>
    ([⟨vote, 0⟩], [{ obligations_pool_entry.ofVote vote with votes := [⟨vote, 0⟩] }])
  | e :: rest =>
    if e.beq (obligations_pool_entry.ofVote vote) then
      if e.votes.any (fun pe => pe.vote.index_in_group == vote.index_in_group) then
        (e.votes, e :: rest)
      else
        let e2 := { e with votes := e.votes ++ [⟨vote, 0⟩] }
        (e2.votes, e2 :: rest)
    else
      let r := add_to_obligations rest vote
      (r.1, e :: r.2)

/-- Modelled from the spec: insertion into the checkpoint sub-pool, same shape
as `add_to_obligations` with the checkpoint decision key. -/
def add_to_checkpoints (pool : List checkpoint_pool_entry) (vote : quorum_vote_t) :
    List pool_vote_entry × List checkpoint_pool_entry :=
  match pool with
  | [] =>
    ([⟨vote, 0⟩], [{ checkpoint_pool_entry.ofVote vote with votes := [⟨vote, 0⟩] }])
  | e :: rest =>
    if e.beq (checkpoint_pool_entry.ofVote vote) then
      if e.votes.any (fun pe => pe.vote.index_in_group == vote.index_in_group) then
        (e.votes, e :: rest)
      else
        let e2 := { e with votes := e.votes ++ [⟨vote, 0⟩] }
        (e2.votes, e2 :: rest)
    else
      let r := add_to_checkpoints rest vote
      (r.1, e :: r.2)

/-- Modelled from the spec: `voting_pool::add_pool_vote_if_unique`
(`masternode_voting.h` lines 126-127).  Route by the vote's quorum type to a
sub-pool; find or create the decision entry for the vote's key; if an entry
for the same signer index already exists within that decision the vote is a
duplicate and the current vote list is returned with no mutation, otherwise
the new `pool_vote_entry` (with `time_last_sent_p2p = 0`) is appended and the
grown list returned.  Per the header comment, the vector of votes is returned
when the vote is structurally recognized (even when it is not unique),
otherwise `nullptr` — modelled as `none`.  No cryptographic check is
performed.  The mutated pool is returned explicitly. -/
def voting_pool.add_pool_vote_if_unique (p : voting_pool) (vote : quorum_vote_t) :
    Option (List pool_vote_entry) × voting_pool :=
  match vote.type with
  | .obligations =>
    let r := add_to_obligations p.m_obligations_pool vote
    (some r.1, { p with m_obligations_pool := r.2 })
  | .checkpointing =>
    let r := add_to_checkpoints p.m_checkpoint_pool vote
    (some r.1, { p with m_checkpoint_pool := r.2 })
  | _ => (none, p)

/-- The protocol-version threshold at which the relay paths diverge.  The
header comment at `masternode_voting.h` lines 134-136 fixes it: "Before HF14
everything goes via p2p; starting in HF14 obligation votes go via quorumnet,
checkpoints go via p2p." -/
def network_version_14_blink : Nat := 14

/-- Modelled from the spec: the votes of every obligations decision entry
whose height is still within the relevance window of `height`. -/
def relayable_obligation_votes (pool : List obligations_pool_entry) (height : Nat) :
    List quorum_vote_t :=
  (pool.filter (fun e => decide (height ≤ e.height + VOTE_LIFETIME))).flatMap
    (fun e => e.votes.map (fun pe => pe.vote))

/-- Modelled from the spec: the votes of every checkpoint decision entry whose
height is still within the relevance window of `height`. -/
def relayable_checkpoint_votes (pool : List checkpoint_pool_entry) (height : Nat) :
    List quorum_vote_t :=
  (pool.filter (fun e => decide (height ≤ e.height + VOTE_LIFETIME))).flatMap
    (fun e => e.votes.map (fun pe => pe.vote))

/-- Modelled from the spec: `voting_pool::get_relayable_votes`
(`masternode_voting.h` lines 134-137).  Returns every pooled vote whose
decision height is within the relevance window of `height`, filtered by
transport eligibility: below `network_version_14_blink` every vote type is
eligible only on the p2p path (`quorum_relay = false`); at or above it,
obligation votes are eligible only on the quorumnet path
(`quorum_relay = true`) and checkpoint votes stay on p2p.  The method is
`const` in the source; the (unchanged) pool state is returned explicitly, and
no `time_last_sent_p2p` field is touched — marking votes as sent is the
separate `set_relayed` step. -/
def voting_pool.get_relayable_votes (p : voting_pool) (height hf_version : Nat)
    (quorum_relay : Bool) : List quorum_vote_t × voting_pool :=
  let obligations_eligible :=
    if quorum_relay then network_version_14_blink ≤ hf_version
    else hf_version < network_version_14_blink
  let result :=
    (if obligations_eligible then relayable_obligation_votes p.m_obligations_pool height
     else [])
    ++
    (if quorum_relay then [] else relayable_checkpoint_votes p.m_checkpoint_pool height)
  (result, p)

/-- Modelled from the spec: `voting_pool::set_relayed` (`masternode_voting.h`
line 130) — update `time_last_sent_p2p` to the current time (`now`, passed
explicitly here) for exactly the pooled votes matched by decision key and
signer index against one of the given votes. -/
def voting_pool.set_relayed (p : voting_pool) (votes : List quorum_vote_t) (now : Nat) :
    voting_pool :=
  { m_obligations_pool := p.m_obligations_pool.map (fun e =>
      { e with votes := e.votes.map (fun pe =>
          if votes.any (fun v => e.beq (obligations_pool_entry.ofVote v) &&
              pe.vote.index_in_group == v.index_in_group)
          then { pe with time_last_sent_p2p := now } else pe) })
    m_checkpoint_pool := p.m_checkpoint_pool.map (fun e =>
      { e with votes := e.votes.map (fun pe =>
          if votes.any (fun v => e.beq (checkpoint_pool_entry.ofVote v) &&
              pe.vote.index_in_group == v.index_in_group)
          then { pe with time_last_sent_p2p := now } else pe) }) }

/-- Modelled from the spec: `voting_pool::remove_expired_votes`
(`masternode_voting.h` line 131) — delete every decision entry (and its
votes) whose height is further behind `height` than the retention window, in
both sub-pools. -/
def voting_pool.remove_expired_votes (p : voting_pool) (height : Nat) : voting_pool :=
  { m_obligations_pool :=
      p.m_obligations_pool.filter (fun e => decide (height ≤ e.height + VOTE_LIFETIME))
    m_checkpoint_pool :=
      p.m_checkpoint_pool.filter (fun e => decide (height ≤ e.height + VOTE_LIFETIME)) }

/-- `cryptonote::transaction` is external to these sources.  Modelled from the
spec: the only aspect `remove_used_votes` consumes is the list of state-change
payloads embedded in the transaction's extra field, so a transaction is
modelled as that list (extraction from the wire format is the storage
collaborator's concern). -/
structure transaction where
  state_changes : List tx_extra_masternode_state_change
deriving DecidableEq, Repr

/-- Modelled from the spec: `voting_pool::remove_used_votes`
(`masternode_voting.h` line 132) — extract the state-change payloads embedded
in the committed transactions and delete every obligations decision entry
whose (height, worker_index, state) key matches one of them; checkpoint
decisions are retired by a different path and are untouched.  The
`hard_fork_version` argument gates payload extraction in the source and does
not affect which matching entries are deleted. -/
def voting_pool.remove_used_votes (p : voting_pool) (txs : List transaction)
    (_hard_fork_version : Nat) : voting_pool :=
  let scs := txs.flatMap (fun tx => tx.state_changes)
  { p with m_obligations_pool := p.m_obligations_pool.filter (fun e =>
      !(scs.any (fun sc => e.beq (obligations_pool_entry.ofStateChange sc)))) }

/-- Outcome of the vote age check.  Modelled from the spec's failure taxonomy:
`Stale` and `FromFuture` are the two reason codes the age check can report
(`vote_verification_context` itself comes from a header not among the
sources). -/
inductive verify_age_result where
| ok
| stale
| from_future
deriving DecidableEq, Repr

/-- Modelled from the spec: `verify_vote_age` (`masternode_voting.h` line
110).  Fails as `Stale` when the vote's height is more than the retention
window behind `latest_height` (`vote.block_height + VOTE_LIFETIME <
latest_height`), as `FromFuture` when it is strictly above the allowed
look-ahead past `latest_height` (the spec's boundary examples put the first
failing future height at `latest_height + 1`, i.e. a zero look-ahead),
otherwise passes. -/
def verify_vote_age (vote : quorum_vote_t) (latest_height : Nat) : verify_age_result :=
  if vote.block_height + VOTE_LIFETIME < latest_height then .stale
  else if latest_height < vote.block_height then .from_future
  else .ok

/-- `masternodes::quorum` is declared at `masternode_voting.h` line 52 and
defined elsewhere.  Modelled from the spec: an ordered list of member
identities (public keys, modelled as `Nat`) partitioned into the validator
and worker groups. -/
structure quorum where
  validators : List Nat
  workers : List Nat
deriving DecidableEq, Repr

/-- `quorum_signature` comes from `tx_extra.h`, which is not among the
sources.  Modelled from the spec: one (voter index, signature) pair of an
aggregate signature set. -/
structure quorum_signature where
  voter_index : Nat
  signature : Nat
deriving DecidableEq, Repr

/-- Modelled from the spec: the minimum number of valid signatures required
for a quorum type at a protocol version, "a monotonically non-decreasing
function of version".  The spec fixes no concrete schedule beyond the 7-of-10
obligations example; the thresholds here are constant in the version, which
is the least non-decreasing schedule consistent with it. -/
def min_votes (t : quorum_type) (_hf_version : Nat) : Nat :=
  match t with
  | .obligations => 7
  | .checkpointing => 13
  | .blink => 7
  | .pulse => 7

/-- Modelled from the spec: `verify_quorum_signatures` (`masternode_voting.h`
line 112).  The cryptographic primitive is the external capability
`verify(signature, message, public_key) -> bool`, passed here as the oracle
`vfy`.  Succeeds iff every voter index is unique and in range for the
quorum's validator group, every individual signature verifies against the
member key at its index over the content hash, and the number of (hence all
valid) signatures meets the threshold for the quorum type at this version. -/
def verify_quorum_signatures (vfy : Nat → Nat → Nat → Bool) (q : quorum)
    (t : quorum_type) (hf_version : Nat) (_height : Nat) (hash : Nat)
    (signatures : List quorum_signature) : Bool :=
  decide ((signatures.map (fun s => s.voter_index)).Nodup) &&
  signatures.all (fun s => s.voter_index < q.validators.length) &&
  signatures.all (fun s => vfy s.signature hash (q.validators.getD s.voter_index 0)) &&
  min_votes t hf_version ≤ signatures.length

/-- Well-formedness of a pool state: every vote stored in the obligations
sub-pool carries quorum type `obligations`, and every vote stored in the
checkpoint sub-pool carries `checkpointing`.  `add_pool_vote_if_unique`
routes votes by type, so every pool built through it satisfies this. -/
def voting_pool.wf (p : voting_pool) : Prop :=
  (∀ e ∈ p.m_obligations_pool, ∀ pe ∈ e.votes, pe.vote.type = quorum_type.obligations) ∧
  (∀ e ∈ p.m_checkpoint_pool, ∀ pe ∈ e.votes, pe.vote.type = quorum_type.checkpointing)

instance (p : voting_pool) : Decidable p.wf := by
  unfold voting_pool.wf
  infer_instance

end masternodes

namespace prune_known_spent_data

/-- `blockchain_prune_known_spent_data.cpp` lines 244-271, the decision of one
iteration of the main pruning loop for map entry `(amount, known_spent)`:
`num_outputs` is `db->get_num_outputs(amount)`; amount 0 is skipped
(`continue`), an amount with more outputs in the database than known spent is
skipped, an amount with a nonzero output count strictly below the known-spent
count is skipped with an error, and otherwise `db->prune_outputs(amount)` is
called exactly when `--dry-run` is not set.  Returns whether the destructive
call is made. -/
def should_prune (num_outputs amount known_spent : Nat) (opt_dry_run : Bool) : Bool :=
  if amount == 0 then false
  else if num_outputs > known_spent then false
  else if num_outputs != 0 && num_outputs < known_spent then false
  else !opt_dry_run

/-- `blockchain_prune_known_spent_data.cpp` lines 244-271: the amounts for
which the loop over `known_spent_outputs` (an iteration over (amount,
known-spent count) pairs) calls `db->prune_outputs`.  The database is
abstracted by its `get_num_outputs` view, the only part the loop consults. -/
def pruned_amounts (get_num_outputs : Nat → Nat) (opt_dry_run : Bool)
    (known_spent_outputs : List (Nat × Nat)) : List Nat :=
  (known_spent_outputs.filter
    (fun i => should_prune (get_num_outputs i.1) i.1 i.2 opt_dry_run)).map
    (fun i => i.1)

end prune_known_spent_data

namespace masternodes

/-! Concrete sample values used by the witness theorems. -/

/-- A sample state-change payload: worker 3, deregister, reason 0. -/
def sample_sc : state_change_vote := ⟨3, new_state.deregister, 0⟩

/-- A sample checkpoint payload. -/
def sample_chk : checkpoint_vote := ⟨77⟩

/-- A sample obligations vote at height 1000 from signer index 1. -/
def sample_vote_ob : quorum_vote_t :=
  ⟨0, quorum_type.obligations, 1000, quorum_group.validator, 1, 11, sample_sc, sample_chk⟩

/-- The same decision key and signer index as `sample_vote_ob` but a different
payload (reason code 2) and a different signature. -/
def sample_vote_ob_dup : quorum_vote_t :=
  ⟨0, quorum_type.obligations, 1000, quorum_group.validator, 1, 99,
    ⟨3, new_state.deregister, 2⟩, sample_chk⟩

/-- A sample obligations vote with the same decision key from signer index 5. -/
def sample_vote_ob5 : quorum_vote_t :=
  ⟨0, quorum_type.obligations, 1000, quorum_group.validator, 5, 55, sample_sc, sample_chk⟩

/-- A sample checkpointing vote at height 1000 from signer index 2. -/
def sample_vote_cp : quorum_vote_t :=
  ⟨0, quorum_type.checkpointing, 1000, quorum_group.validator, 2, 12, sample_sc, sample_chk⟩

/-- The obligations decision entry holding `sample_vote_ob`. -/
def sample_entry : obligations_pool_entry :=
  ⟨1000, 3, new_state.deregister, [⟨sample_vote_ob, 0⟩]⟩

/-- The checkpoint decision entry holding `sample_vote_cp`. -/
def sample_cp_entry : checkpoint_pool_entry := ⟨1000, 77, [⟨sample_vote_cp, 0⟩]⟩

/-- A sample pool holding one obligations decision and one checkpoint decision. -/
def sample_pool : voting_pool := ⟨[sample_entry], [sample_cp_entry]⟩

/-- The embedded state change committing `sample_entry`'s decision. -/
def sample_sc_extra : tx_extra_masternode_state_change := ⟨1000, 3, new_state.deregister⟩

/-- A committed transaction embedding `sample_sc_extra`. -/
def sample_tx : transaction := ⟨[sample_sc_extra]⟩

/-! Helper lemmas about the pool operations. -/

/-- When lookup finds the decision entry, a duplicate signer index makes
`add_to_obligations` return the entry's votes and the sub-pool unchanged. -/
theorem add_to_obligations_duplicate (pool : List obligations_pool_entry)
    (v : quorum_vote_t) (e : obligations_pool_entry)
    (hfind : find_obligations_entry pool v = some e)
    (hdup : e.votes.any (fun pe => pe.vote.index_in_group == v.index_in_group) = true) :
    add_to_obligations pool v = (e.votes, pool) := by
  induction pool with
  | nil => simp [find_obligations_entry] at hfind
  | cons a rest ih =>
    by_cases hbeq : a.beq (obligations_pool_entry.ofVote v) = true
    · rw [find_obligations_entry,
        List.find?_cons_of_pos
          (p := fun x => obligations_pool_entry.beq x (obligations_pool_entry.ofVote v)) _ hbeq]
        at hfind
      cases hfind
      simp [add_to_obligations, hbeq, hdup]
    · rw [find_obligations_entry, List.find?_cons_of_neg _ (by simp [hbeq])] at hfind
      have := ih hfind
      simp [add_to_obligations, hbeq, this]

/-- Checkpoint-sub-pool analogue of `add_to_obligations_duplicate`. -/
theorem add_to_checkpoints_duplicate (pool : List checkpoint_pool_entry)
    (v : quorum_vote_t) (e : checkpoint_pool_entry)
    (hfind : find_checkpoint_entry pool v = some e)
    (hdup : e.votes.any (fun pe => pe.vote.index_in_group == v.index_in_group) = true) :
    add_to_checkpoints pool v = (e.votes, pool) := by
  induction pool with
  | nil => simp [find_checkpoint_entry] at hfind
  | cons a rest ih =>
    by_cases hbeq : a.beq (checkpoint_pool_entry.ofVote v) = true
    · rw [find_checkpoint_entry,
        List.find?_cons_of_pos
          (p := fun x => checkpoint_pool_entry.beq x (checkpoint_pool_entry.ofVote v)) _ hbeq]
        at hfind
      cases hfind
      simp [add_to_checkpoints, hbeq, hdup]
    · rw [find_checkpoint_entry, List.find?_cons_of_neg _ (by simp [hbeq])] at hfind
      have := ih hfind
      simp [add_to_checkpoints, hbeq, this]

/-- C1: when the decision entry matching the vote's decision key already
contains an entry with the vote's signer index, `add_pool_vote_if_unique`
returns that decision's current vote list and performs no mutation of the
pool; in particular the vote stored for that signer index stays the first one
accepted even when the incoming vote carries a different payload. -/
theorem add_pool_vote_if_unique_duplicate (p : voting_pool) (v : quorum_vote_t)
    (l : List pool_vote_entry)
    (hfind : p.find_vote_pool v = some l)
    (hdup : ∃ pe ∈ l, pe.vote.index_in_group = v.index_in_group) :
    p.add_pool_vote_if_unique v = (some l, p) := by
  obtain ⟨pe, hpe, hidx⟩ := hdup
  have hany : l.any (fun pe => pe.vote.index_in_group == v.index_in_group) = true := by
    rw [List.any_eq_true]
    exact ⟨pe, hpe, by simp [hidx]⟩
  cases htype : v.type with
  | obligations =>
    rw [voting_pool.find_vote_pool, htype] at hfind
    obtain ⟨e, he, hev⟩ := Option.map_eq_some'.mp hfind
    subst hev
    simp [voting_pool.add_pool_vote_if_unique, htype,
      add_to_obligations_duplicate _ _ _ he hany]
  | checkpointing =>
    rw [voting_pool.find_vote_pool, htype] at hfind
    obtain ⟨e, he, hev⟩ := Option.map_eq_some'.mp hfind
    subst hev
    simp [voting_pool.add_pool_vote_if_unique, htype,
      add_to_checkpoints_duplicate _ _ _ he hany]
  | blink => rw [voting_pool.find_vote_pool, htype] at hfind; cases hfind
  | pulse => rw [voting_pool.find_vote_pool, htype] at hfind; cases hfind

/-- Witness for C1: re-inserting `sample_vote_ob`'s (decision key, signer
index) with a different payload returns the stored vote list and leaves the
pool unchanged. -/
theorem add_pool_vote_if_unique_duplicate_witness :
    sample_pool.add_pool_vote_if_unique sample_vote_ob_dup =
      (some [⟨sample_vote_ob, 0⟩], sample_pool) :=
  add_pool_vote_if_unique_duplicate sample_pool sample_vote_ob_dup
    [⟨sample_vote_ob, 0⟩] (by decide) (by decide)

/-- C4: the age check accepts a vote at exactly `latest_height`, rejects as
`Stale` a vote whose height is `window + 1` behind it, rejects as
`FromFuture` a vote one block past it, and in general fails exactly for the
votes whose height is more than the retention window behind `latest_height`
(Stale) or strictly above it (FromFuture). -/
theorem verify_vote_age_boundaries (v : quorum_vote_t) (H : Nat) :
    (v.block_height = H → verify_vote_age v H = verify_age_result.ok) ∧
    (v.block_height + (VOTE_LIFETIME + 1) = H →
      verify_vote_age v H = verify_age_result.stale) ∧
    (v.block_height = H + 1 → verify_vote_age v H = verify_age_result.from_future) ∧
    (verify_vote_age v H ≠ verify_age_result.ok ↔
      (v.block_height + VOTE_LIFETIME < H ∨ H < v.block_height)) := by
  refine ⟨?_, ?_, ?_, ?_⟩
  · intro h
    rw [verify_vote_age, if_neg (by omega), if_neg (by omega)]
  · intro h
    rw [verify_vote_age, if_pos (by omega)]
  · intro h
    rw [verify_vote_age, if_neg (by omega), if_pos (by omega)]
  · by_cases h1 : v.block_height + VOTE_LIFETIME < H
    · rw [verify_vote_age, if_pos h1]
      simp [h1]
    · by_cases h2 : H < v.block_height
      · rw [verify_vote_age, if_neg h1, if_pos h2]
        simp [h1, h2]
      · rw [verify_vote_age, if_neg h1, if_neg h2]
        simp [h1, h2]

/-- Witness for C4: for a vote at height 1000 the age check passes at
`latest_height = 1000`, fails Stale at `latest_height = 1061`
(`= 1000 + window + 1`) and fails FromFuture at `latest_height = 999`. -/
theorem verify_vote_age_boundaries_witness :
    verify_vote_age sample_vote_ob 1000 = verify_age_result.ok ∧
    verify_vote_age sample_vote_ob 1061 = verify_age_result.stale ∧
    verify_vote_age sample_vote_ob 999 = verify_age_result.from_future :=
  ⟨(verify_vote_age_boundaries sample_vote_ob 1000).1 (by decide),
   (verify_vote_age_boundaries sample_vote_ob 1061).2.1 (by decide),
   (verify_vote_age_boundaries sample_vote_ob 999).2.2.1 (by decide)⟩

/-- C5: `verify_quorum_signatures` succeeds only when every voter index is
unique and in range for the quorum, every individual signature verifies
against the member key at its index, and the signature count meets the
threshold for the quorum type at that version; and the threshold is
monotonically non-decreasing in the version. -/
theorem verify_quorum_signatures_sound (vfy : Nat → Nat → Nat → Bool) (q : quorum)
    (t : quorum_type) (hf_version height hash : Nat)
    (signatures : List quorum_signature) :
    (verify_quorum_signatures vfy q t hf_version height hash signatures = true →
      (signatures.map (fun s => s.voter_index)).Nodup ∧
      (∀ s ∈ signatures, s.voter_index < q.validators.length) ∧
      (∀ s ∈ signatures, vfy s.signature hash (q.validators.getD s.voter_index 0) = true) ∧
      min_votes t hf_version ≤ signatures.length) ∧
    (∀ u w : Nat, u ≤ w → min_votes t u ≤ min_votes t w) := by
  constructor
  · intro h
    rw [verify_quorum_signatures] at h
    simp only [Bool.and_eq_true, List.all_eq_true, decide_eq_true_eq] at h
    exact ⟨h.1.1.1, h.1.1.2, h.1.2, h.2⟩
  · intro u w _
    cases t <;> simp [min_votes]

/-- A sample verification oracle for the C5 witness: a signature is the sum
of the hash and the public key. -/
def sample_vfy : Nat → Nat → Nat → Bool := fun s h k => s == h + k

/-- A sample quorum of seven validators for the C5 witness. -/
def sample_quorum : quorum := ⟨[21, 22, 23, 24, 25, 26, 27], [31, 32, 33]⟩

/-- A sample aggregate signature set over content hash 5 for the C5 witness:
all seven validators sign. -/
def sample_sigs : List quorum_signature :=
  [⟨0, 26⟩, ⟨1, 27⟩, ⟨2, 28⟩, ⟨3, 29⟩, ⟨4, 30⟩, ⟨5, 31⟩, ⟨6, 32⟩]

/-- Witness for C5: the sample signature set passes, so its count meets the
obligations threshold at version 9, and the threshold at version 9 is at
least the threshold at version 7. -/
theorem verify_quorum_signatures_sound_witness :
    min_votes quorum_type.obligations 9 ≤ sample_sigs.length ∧
    min_votes quorum_type.obligations 7 ≤ min_votes quorum_type.obligations 9 :=
  ⟨((verify_quorum_signatures_sound sample_vfy sample_quorum quorum_type.obligations
      9 1000 5 sample_sigs).1 (by decide)).2.2.2,
   (verify_quorum_signatures_sound sample_vfy sample_quorum quorum_type.obligations
      9 1000 5 sample_sigs).2 7 9 (by decide)⟩

/-- C7: after `remove_expired_votes h`, every surviving decision entry (in
either sub-pool) has a height within the retention window of `h` — so any
query for a decision further behind returns nothing — and every decision
entry within the window survives with its full vote list. -/
theorem remove_expired_votes_window (p : voting_pool) (height : Nat) :
    (∀ e ∈ (p.remove_expired_votes height).m_obligations_pool,
      height ≤ e.height + VOTE_LIFETIME) ∧
    (∀ e ∈ (p.remove_expired_votes height).m_checkpoint_pool,
      height ≤ e.height + VOTE_LIFETIME) ∧
    (∀ e ∈ p.m_obligations_pool, height ≤ e.height + VOTE_LIFETIME →
      e ∈ (p.remove_expired_votes height).m_obligations_pool) ∧
    (∀ e ∈ p.m_checkpoint_pool, height ≤ e.height + VOTE_LIFETIME →
      e ∈ (p.remove_expired_votes height).m_checkpoint_pool) := by
  refine ⟨?_, ?_, ?_, ?_⟩
  · intro e he
    have := (List.mem_filter.mp he).2
    simpa using this
  · intro e he
    have := (List.mem_filter.mp he).2
    simpa using this
  · intro e he hw
    exact List.mem_filter.mpr ⟨he, by simpa using hw⟩
  · intro e he hw
    exact List.mem_filter.mpr ⟨he, by simpa using hw⟩

/-- Witness for C7: expiring at height 1030 keeps `sample_entry` (height
1000, still within the 60-block window) in the obligations sub-pool with its
vote list intact. -/
theorem remove_expired_votes_window_witness :
    sample_entry ∈ (sample_pool.remove_expired_votes 1030).m_obligations_pool :=
  (remove_expired_votes_window sample_pool 1030).2.2.1 sample_entry
    (by decide) (by decide)

/-- C6: two obligation votes map to key-equal decision entries iff their
block heights, worker indices and proposed states all agree; the reason code
is not part of the key, and differing proposed states alone separate the
decisions.  The last conjunct replays this through the pool: inserting two
obligation votes into an empty pool yields one decision entry when their keys
match and two when they do not. -/
theorem obligations_decision_key_iff (v1 v2 : quorum_vote_t) :
    ((obligations_pool_entry.ofVote v1).beq (obligations_pool_entry.ofVote v2) = true ↔
      (v1.block_height = v2.block_height ∧
       v1.state_change.worker_index = v2.state_change.worker_index ∧
       v1.state_change.state = v2.state_change.state)) ∧
    (∀ r : Nat,
      (obligations_pool_entry.ofVote
          { v1 with state_change := { v1.state_change with reason := r } }).beq
        (obligations_pool_entry.ofVote v1) = true) ∧
    (v1.state_change.state ≠ v2.state_change.state →
      (obligations_pool_entry.ofVote v1).beq (obligations_pool_entry.ofVote v2) = false) ∧
    (v1.type = quorum_type.obligations → v2.type = quorum_type.obligations →
      (((voting_pool.mk [] []).add_pool_vote_if_unique v1).2.add_pool_vote_if_unique
          v2).2.m_obligations_pool.length =
        if (obligations_pool_entry.ofVote v1).beq (obligations_pool_entry.ofVote v2)
        then 1 else 2) := by
  refine ⟨?_, ?_, ?_, ?_⟩
  · simp [obligations_pool_entry.beq, obligations_pool_entry.ofVote, and_assoc]
  · intro r
    simp [obligations_pool_entry.beq, obligations_pool_entry.ofVote]
  · intro hne
    simp [obligations_pool_entry.beq, obligations_pool_entry.ofVote, hne]
  · intro h1 h2
    simp only [voting_pool.add_pool_vote_if_unique, h1, h2, add_to_obligations]
    by_cases hbeq :
        (obligations_pool_entry.ofVote v1).beq (obligations_pool_entry.ofVote v2) = true
    · have hb : ({ obligations_pool_entry.ofVote v1 with
          votes := [(⟨v1, 0⟩ : pool_vote_entry)] } : obligations_pool_entry).beq
          (obligations_pool_entry.ofVote v2) = true := hbeq
      by_cases hany :
          ([(⟨v1, 0⟩ : pool_vote_entry)].any
            (fun pe => pe.vote.index_in_group == v2.index_in_group)) = true
      · simp [hb, hbeq, hany]
      · simp [hb, hbeq, hany]
    · have hb : ({ obligations_pool_entry.ofVote v1 with
          votes := [(⟨v1, 0⟩ : pool_vote_entry)] } : obligations_pool_entry).beq
          (obligations_pool_entry.ofVote v2) = false := Bool.eq_false_iff.mpr hbeq
      simp [hb, hbeq, add_to_obligations]

/-- Witness for C6: changing only the reason code of `sample_vote_ob` keeps
the decision key, and changing the proposed state breaks it. -/
theorem obligations_decision_key_iff_witness :
    ((obligations_pool_entry.ofVote
        { sample_vote_ob with
            state_change := { sample_vote_ob.state_change with reason := 5 } }).beq
      (obligations_pool_entry.ofVote sample_vote_ob) = true) ∧
    ((obligations_pool_entry.ofVote sample_vote_ob).beq
      (obligations_pool_entry.ofVote
        { sample_vote_ob with
            state_change := { sample_vote_ob.state_change with
              state := new_state.decommission } }) = false) ∧
    (((voting_pool.mk [] []).add_pool_vote_if_unique
        sample_vote_ob).2.add_pool_vote_if_unique
          sample_vote_ob5).2.m_obligations_pool.length = 1 :=
  ⟨(obligations_decision_key_iff sample_vote_ob sample_vote_ob).2.1 5,
   (obligations_decision_key_iff sample_vote_ob
      { sample_vote_ob with
          state_change := { sample_vote_ob.state_change with
            state := new_state.decommission } }).2.2.1 (by decide),
   by
    rw [(obligations_decision_key_iff sample_vote_ob sample_vote_ob5).2.2.2 rfl rfl]
    decide⟩

/-- Key equality of obligations decision entries is transitive. -/
theorem obligations_beq_trans {a b c : obligations_pool_entry}
    (h1 : a.beq b = true) (h2 : b.beq c = true) : a.beq c = true := by
  simp only [obligations_pool_entry.beq, Bool.and_eq_true, beq_iff_eq,
    decide_eq_true_eq] at h1 h2 ⊢
  exact ⟨⟨h1.1.1.trans h2.1.1, h1.1.2.trans h2.1.2⟩, h1.2.trans h2.2⟩

/-- When no decision entry matches the vote's key, `add_to_obligations`
appends a fresh entry holding just this vote and returns its one-vote list. -/
theorem add_to_obligations_fresh (pool : List obligations_pool_entry) (v : quorum_vote_t)
    (h : ∀ e ∈ pool, e.beq (obligations_pool_entry.ofVote v) = false) :
    add_to_obligations pool v =
      ([⟨v, 0⟩],
        pool ++ [{ obligations_pool_entry.ofVote v with votes := [⟨v, 0⟩] }]) := by
  induction pool with
  | nil => simp [add_to_obligations]
  | cons a rest ih =>
    have ha := h a (by simp)
    have hrest : ∀ e ∈ rest, e.beq (obligations_pool_entry.ofVote v) = false :=
      fun e he => h e (by simp [he])
    simp [add_to_obligations, ha, ih hrest]

/-- Membership in the obligations sub-pool after `remove_used_votes`: exactly
the entries of the original sub-pool whose key matches no committed
state-change payload. -/
theorem remove_used_votes_mem (p : voting_pool) (txs : List transaction) (hf : Nat)
    (e : obligations_pool_entry) :
    e ∈ (p.remove_used_votes txs hf).m_obligations_pool ↔
      (e ∈ p.m_obligations_pool ∧
        ∀ sc ∈ txs.flatMap (fun tx => tx.state_changes),
          e.beq (obligations_pool_entry.ofStateChange sc) = false) := by
  simp only [voting_pool.remove_used_votes, List.mem_filter, Bool.not_eq_true',
    List.any_eq_false, decide_eq_true_eq]
  constructor
  · rintro ⟨hmem, hall⟩
    exact ⟨hmem, fun sc hsc => Bool.eq_false_iff.mpr (hall sc hsc)⟩
  · rintro ⟨hmem, hall⟩
    exact ⟨hmem, fun sc hsc => Bool.eq_false_iff.mp (hall sc hsc)⟩

/-- C8: `remove_used_votes` deletes from the obligations sub-pool exactly the
decision entries whose (height, worker_index, state) key matches a
state-change payload embedded in a committed transaction, leaves every other
entry (and the whole checkpoint sub-pool) unchanged, and a vote for a removed
key added afterwards starts a fresh decision whose returned vote list holds
only that vote. -/
theorem remove_used_votes_spec (p : voting_pool) (txs : List transaction) (hf : Nat) :
    (∀ e : obligations_pool_entry,
      e ∈ (p.remove_used_votes txs hf).m_obligations_pool ↔
        (e ∈ p.m_obligations_pool ∧
          ∀ sc ∈ txs.flatMap (fun tx => tx.state_changes),
            e.beq (obligations_pool_entry.ofStateChange sc) = false)) ∧
    ((p.remove_used_votes txs hf).m_checkpoint_pool = p.m_checkpoint_pool) ∧
    (∀ v : quorum_vote_t, v.type = quorum_type.obligations →
      (∃ sc ∈ txs.flatMap (fun tx => tx.state_changes),
        (obligations_pool_entry.ofVote v).beq
          (obligations_pool_entry.ofStateChange sc) = true) →
      ((p.remove_used_votes txs hf).add_pool_vote_if_unique v).1 = some [⟨v, 0⟩]) := by
  refine ⟨remove_used_votes_mem p txs hf, rfl, ?_⟩
  rintro v htype ⟨sc, hsc, hbeq⟩
  have hall : ∀ e ∈ (p.remove_used_votes txs hf).m_obligations_pool,
      e.beq (obligations_pool_entry.ofVote v) = false := by
    intro e he
    cases hval : e.beq (obligations_pool_entry.ofVote v) with
    | false => rfl
    | true =>
      have htrans := obligations_beq_trans hval hbeq
      have hfalse := ((remove_used_votes_mem p txs hf e).mp he).2 sc hsc
      rw [htrans] at hfalse
      cases hfalse
  simp only [voting_pool.add_pool_vote_if_unique, htype,
    add_to_obligations_fresh _ _ hall]

/-- Witness for C8: after committing the (1000, worker 3, deregister)
decision, a fresh vote for that key starts a new decision holding only
itself. -/
theorem remove_used_votes_spec_witness :
    ((sample_pool.remove_used_votes [sample_tx] 14).add_pool_vote_if_unique
      sample_vote_ob5).1 = some [⟨sample_vote_ob5, 0⟩] :=
  (remove_used_votes_spec sample_pool [sample_tx] 14).2.2 sample_vote_ob5 rfl
    ⟨sample_sc_extra, by decide, by decide⟩

/-- Total number of votes stored across both sub-pools. -/
def total_pool_votes (p : voting_pool) : Nat :=
  (p.m_obligations_pool.map (fun e => e.votes.length)).sum +
  (p.m_checkpoint_pool.map (fun e => e.votes.length)).sum

/-- Changing only a vote's signature changes neither the length of the vote
list `add_to_obligations` returns nor the per-entry vote counts of the
resulting sub-pool. -/
theorem add_to_obligations_sig_invariant (pool : List obligations_pool_entry)
    (v : quorum_vote_t) (s : Nat) :
    (add_to_obligations pool { v with signature := s }).1.length =
      (add_to_obligations pool v).1.length ∧
    (add_to_obligations pool { v with signature := s }).2.map (fun e => e.votes.length) =
      (add_to_obligations pool v).2.map (fun e => e.votes.length) := by
  have hof : obligations_pool_entry.ofVote { v with signature := s } =
      obligations_pool_entry.ofVote v := rfl
  have hidx : ({ v with signature := s } : quorum_vote_t).index_in_group =
      v.index_in_group := rfl
  induction pool with
  | nil => simp [add_to_obligations]
  | cons e rest ih =>
    simp only [add_to_obligations, hof, hidx]
    by_cases hbeq : e.beq (obligations_pool_entry.ofVote v) = true
    · by_cases hany :
          (e.votes.any fun pe => pe.vote.index_in_group == v.index_in_group) = true
      · simp [hbeq, hany]
      · simp [hbeq, hany]
    · simp [hbeq, ih]

/-- Checkpoint-sub-pool analogue of `add_to_obligations_sig_invariant`. -/
theorem add_to_checkpoints_sig_invariant (pool : List checkpoint_pool_entry)
    (v : quorum_vote_t) (s : Nat) :
    (add_to_checkpoints pool { v with signature := s }).1.length =
      (add_to_checkpoints pool v).1.length ∧
    (add_to_checkpoints pool { v with signature := s }).2.map (fun e => e.votes.length) =
      (add_to_checkpoints pool v).2.map (fun e => e.votes.length) := by
  have hof : checkpoint_pool_entry.ofVote { v with signature := s } =
      checkpoint_pool_entry.ofVote v := rfl
  have hidx : ({ v with signature := s } : quorum_vote_t).index_in_group =
      v.index_in_group := rfl
  induction pool with
  | nil => simp [add_to_checkpoints]
  | cons e rest ih =>
    simp only [add_to_checkpoints, hof, hidx]
    by_cases hbeq : e.beq (checkpoint_pool_entry.ofVote v) = true
    · by_cases hany :
          (e.votes.any fun pe => pe.vote.index_in_group == v.index_in_group) = true
      · simp [hbeq, hany]
      · simp [hbeq, hany]
    · simp [hbeq, ih]

/-- C2: `add_pool_vote_if_unique` performs no cryptographic check: whatever
signature the vote carries, the call succeeds exactly when the vote's quorum
type is structurally recognized (routes to a sub-pool), and the length of the
returned vote list and the per-entry vote counts of the resulting pool are
the same as for the identical vote with any other signature — the operation
is bookkeeping over decision key and signer index only. -/
theorem add_pool_vote_if_unique_no_crypto (p : voting_pool) (v : quorum_vote_t)
    (s : Nat) :
    ((p.add_pool_vote_if_unique { v with signature := s }).1.isSome ↔
      (v.type = quorum_type.obligations ∨ v.type = quorum_type.checkpointing)) ∧
    ((p.add_pool_vote_if_unique { v with signature := s }).1.map List.length =
      (p.add_pool_vote_if_unique v).1.map List.length) ∧
    (total_pool_votes (p.add_pool_vote_if_unique { v with signature := s }).2 =
      total_pool_votes (p.add_pool_vote_if_unique v).2) := by
  have htype : ({ v with signature := s } : quorum_vote_t).type = v.type := rfl
  cases hty : v.type with
  | obligations =>
    have h1 := add_to_obligations_sig_invariant p.m_obligations_pool v s
    rw [hty] at h1
    refine ⟨?_, ?_, ?_⟩
    · simp [voting_pool.add_pool_vote_if_unique, htype, hty]
    · simp [voting_pool.add_pool_vote_if_unique, htype, hty, h1.1]
    · simp [voting_pool.add_pool_vote_if_unique, htype, hty, total_pool_votes, h1.2]
  | checkpointing =>
    have h1 := add_to_checkpoints_sig_invariant p.m_checkpoint_pool v s
    rw [hty] at h1
    refine ⟨?_, ?_, ?_⟩
    · simp [voting_pool.add_pool_vote_if_unique, htype, hty]
    · simp [voting_pool.add_pool_vote_if_unique, htype, hty, h1.1]
    · simp [voting_pool.add_pool_vote_if_unique, htype, hty, total_pool_votes, h1.2]
  | blink =>
    refine ⟨?_, ?_, ?_⟩ <;>
      simp [voting_pool.add_pool_vote_if_unique, htype, hty]
  | pulse =>
    refine ⟨?_, ?_, ?_⟩ <;>
      simp [voting_pool.add_pool_vote_if_unique, htype, hty]

/-- A vote returned from the obligations sub-pool comes from one of its
decision entries. -/
theorem mem_relayable_obligation_votes {pool : List obligations_pool_entry}
    {h : Nat} {v : quorum_vote_t} (hv : v ∈ relayable_obligation_votes pool h) :
    ∃ e ∈ pool, ∃ pe ∈ e.votes, pe.vote = v := by
  simp only [relayable_obligation_votes, List.mem_flatMap, List.mem_filter,
    List.mem_map] at hv
  obtain ⟨e, ⟨he, _⟩, pe, hpe, hveq⟩ := hv
  exact ⟨e, he, pe, hpe, hveq⟩

/-- A vote returned from the checkpoint sub-pool comes from one of its
decision entries. -/
theorem mem_relayable_checkpoint_votes {pool : List checkpoint_pool_entry}
    {h : Nat} {v : quorum_vote_t} (hv : v ∈ relayable_checkpoint_votes pool h) :
    ∃ e ∈ pool, ∃ pe ∈ e.votes, pe.vote = v := by
  simp only [relayable_checkpoint_votes, List.mem_flatMap, List.mem_filter,
    List.mem_map] at hv
  obtain ⟨e, ⟨he, _⟩, pe, hpe, hveq⟩ := hv
  exact ⟨e, he, pe, hpe, hveq⟩

/-- C3: `get_relayable_votes` routes by the fixed HF14 threshold: below it
the quorumnet path (`quorum_relay = true`) returns nothing, so votes of every
type travel only on p2p; at or above it no obligation vote is ever returned
on the p2p path; and no checkpoint vote is ever returned on the quorumnet
path at any version. -/
theorem get_relayable_votes_routing (p : voting_pool) (height hf_version : Nat)
    (hwf : p.wf) :
    (hf_version < network_version_14_blink →
      (p.get_relayable_votes height hf_version true).1 = []) ∧
    (network_version_14_blink ≤ hf_version →
      ∀ v ∈ (p.get_relayable_votes height hf_version false).1,
        v.type ≠ quorum_type.obligations) ∧
    (∀ v ∈ (p.get_relayable_votes height hf_version true).1,
      v.type ≠ quorum_type.checkpointing) := by
  refine ⟨?_, ?_, ?_⟩
  · intro hlt
    simp [voting_pool.get_relayable_votes, Nat.not_le.mpr hlt]
  · intro hge v hv
    simp [voting_pool.get_relayable_votes, Nat.not_lt.mpr hge] at hv
    obtain ⟨e, he, pe, hpe, hveq⟩ := mem_relayable_checkpoint_votes hv
    subst hveq
    simp [hwf.2 e he pe hpe]
  · intro v hv
    by_cases hge : network_version_14_blink ≤ hf_version
    · simp [voting_pool.get_relayable_votes, hge] at hv
      obtain ⟨e, he, pe, hpe, hveq⟩ := mem_relayable_obligation_votes hv
      subst hveq
      simp [hwf.1 e he pe hpe]
    · simp [voting_pool.get_relayable_votes, hge] at hv

/-- Witness for C3: on the sample pool the quorumnet path returns nothing at
version 13, and at version 14 the only vote the p2p path returns is the
checkpoint vote. -/
theorem get_relayable_votes_routing_witness :
    (sample_pool.get_relayable_votes 1000 13 true).1 = [] ∧
    (sample_pool.get_relayable_votes 1000 14 false).1 = [sample_vote_cp] :=
  ⟨(get_relayable_votes_routing sample_pool 1000 13 (by decide)).1 (by decide),
   by decide⟩

/-- C9: `get_relayable_votes` is a read-only operation: the pool it returns
is exactly the pool it was given, so no vote is marked as sent and no
`time_last_sent_p2p` field changes (those change only through the separate
`set_relayed` step). -/
theorem get_relayable_votes_const (p : voting_pool) (height hf_version : Nat)
    (quorum_relay : Bool) :
    (p.get_relayable_votes height hf_version quorum_relay).2 = p := rfl

end masternodes

namespace prune_known_spent_data

/-- The pruning decision of one loop iteration, characterized: prune exactly
when the amount is nonzero, dry-run is off, and the database output count
equals the known-spent count or is zero. -/
theorem should_prune_iff (n a s : Nat) (dry : Bool) :
    should_prune n a s dry = true ↔ (a ≠ 0 ∧ dry = false ∧ (n = s ∨ n = 0)) := by
  unfold should_prune
  rcases dry <;> by_cases h1 : a = 0
  all_goals simp [h1]
  all_goals omega

/-- C10: in the prune utility's main loop, `db->prune_outputs(amount)` is
called only when the amount is nonzero, `--dry-run` is not set, and the
database's output count for that amount equals the recorded known-spent count
or is zero; amounts whose output count strictly exceeds the known-spent
count, or is nonzero and strictly below it, are skipped, and amount 0 is
never pruned. -/
theorem prune_outputs_guarded (get_num : Nat → Nat) (opt_dry_run : Bool)
    (amount known_spent : Nat) (known : List (Nat × Nat)) :
    (should_prune (get_num amount) amount known_spent opt_dry_run = true ↔
      (amount ≠ 0 ∧ opt_dry_run = false ∧
        (get_num amount = known_spent ∨ get_num amount = 0))) ∧
    (known_spent < get_num amount →
      should_prune (get_num amount) amount known_spent opt_dry_run = false) ∧
    (get_num amount ≠ 0 → get_num amount < known_spent →
      should_prune (get_num amount) amount known_spent opt_dry_run = false) ∧
    (should_prune (get_num 0) 0 known_spent opt_dry_run = false) ∧
    (∀ a ∈ pruned_amounts get_num opt_dry_run known,
      a ≠ 0 ∧ opt_dry_run = false ∧
        (get_num a = 0 ∨ ∃ s, (a, s) ∈ known ∧ get_num a = s)) := by
  refine ⟨should_prune_iff _ _ _ _, ?_, ?_, ?_, ?_⟩
  · intro hgt
    rw [Bool.eq_false_iff]
    intro htrue
    have := (should_prune_iff _ _ _ _).mp htrue
    omega
  · intro hne hlt
    rw [Bool.eq_false_iff]
    intro htrue
    have := (should_prune_iff _ _ _ _).mp htrue
    omega
  · rw [Bool.eq_false_iff]
    intro htrue
    have := (should_prune_iff _ _ _ _).mp htrue
    simp at this
  · intro a ha
    rw [pruned_amounts] at ha
    obtain ⟨i, hi, hia⟩ := List.mem_map.mp ha
    obtain ⟨hknown, hdec⟩ := List.mem_filter.mp hi
    obtain ⟨hne, hdry, hor⟩ := (should_prune_iff _ _ _ _).mp hdec
    subst hia
    refine ⟨hne, hdry, ?_⟩
    rcases hor with h | h
    · exact Or.inr ⟨i.2, hknown, h⟩
    · exact Or.inl h

/-- A sample database view for the pruning witness. -/
def sample_get_num : Nat → Nat := fun a => if a = 5 then 3 else 7

/-- Witness for C10: with 7 outputs in the database and only 2 known spent,
amount 9 is skipped; with 3 outputs and 4 known spent, amount 5 is skipped. -/
theorem prune_outputs_guarded_witness :
    should_prune (sample_get_num 9) 9 2 false = false ∧
    should_prune (sample_get_num 5) 5 4 false = false :=
  ⟨(prune_outputs_guarded sample_get_num false 9 2 []).2.1 (by decide),
   (prune_outputs_guarded sample_get_num false 5 4 []).2.2.1 (by decide) (by decide)⟩

end prune_known_spent_data
